import Mathlib

/-!
Verification of the nhl-stats client library (src/nhl_stats/player.py and
src/nhl_stats/team.py): a shallow embedding of the lazy-loading attribute
resolution for `Player` and `Team`, the roster / stats operations, and the
`TeamStats` record, together with theorems about the claims of the design
specification.

Modelling conventions:
* JSON values and Python data values are both modelled by the inductive
  type `Json` (Python `None` is `Json.null`); dictionaries are association
  lists with first-match lookup (Python dicts have unique keys, so every
  dictionary produced by the real program has `Nodup` keys).
* Python exceptions are the inductive `PyError`; fallible code returns
  `Except`.  Each network operation wraps its `try:` block with
  `runGuarded`, which marks an escaping error with a Boolean that records
  whether the operation logged it (the `except` clauses catch and log
  exactly `requests.exceptions.HTTPError` and `KeyError`; any other error
  raised inside or after the `try` propagates unlogged).
* The network is modelled by passing in the `HttpResp` that the single
  request of the operation would receive; each operation additionally
  returns the number of requests it issued (0 or 1), so that the
  fetch-counting claims can be stated.  URLs, query parameters and the
  timeout configured in the (absent) constants module do not influence the
  data flow of any claim and are not modelled.
* Entity state is the instance dictionary: the identifier, the
  `_loaded_basic_info` flag and the descriptive attributes stored by
  `setattr`.  The logger object (`self._log` / module-level `LOG`) is
  external diagnostics state; only the fact that an error was logged is
  modelled (the Boolean above).  Class-level attributes (methods, the
  mapping tables) are resolved by Python before `__getattr__` is ever
  consulted and are not part of the instance dictionary model.
-/

set_option autoImplicit false

namespace NhlStats

/-- JSON / Python data values. -/
inductive Json where
  | null
  | bool (b : Bool)
  | int (n : Int)
  | str (s : String)
  | arr (elems : List Json)
  | obj (fields : List (String × Json))
  deriving Repr

/-- The Python exceptions that the modelled code can raise. -/
inductive PyError where
  | httpError
  | keyError (key : String)
  | indexError
  | typeError
  | valueError (msg : String)
  | attributeError (name : String)
  deriving Repr, DecidableEq

/-- Outcome of one HTTP request: either `raise_for_status` raises
(non-2xx status), or a parsed JSON body is available. -/
inductive HttpResp where
  | transport
  | ok (body : Json)
  deriving Repr

/-- `response.raise_for_status(); response.json()`. -/
def requestJson : HttpResp → Except PyError Json
  | .transport => .error .httpError
  | .ok body => .ok body

/-- First-match association-list lookup (Python dictionary lookup). -/
def dget {α : Type} : List (String × α) → String → Option α
  | [], _ => none
  | (k', v) :: rest, k => if k' = k then some v else dget rest k

/-- Python `dict.get(key)` / `dict.get(key, None)`: the value bound to the
key, or `None` when absent. -/
def pyGetNull (kvs : List (String × Json)) (k : String) : Json :=
  (dget kvs k).getD .null

/-- Python `setattr` on the instance dictionary: overwrite the existing
binding or append a new one. -/
def setAttr : List (String × Json) → String → Json → List (String × Json)
  | [], k, v => [(k, v)]
  | (k', v') :: rest, k, v =>
      if k' = k then (k, v) :: rest else (k', v') :: setAttr rest k v

/-- Python subscript `value[key]` with a string key. -/
def getItemS : Json → String → Except PyError Json
  | .obj kvs, k =>
      match dget kvs k with
      | some v => .ok v
      | none => .error (.keyError k)
  | _, _ => .error .typeError

/-- Python subscript `value[i]` with a non-negative integer index. -/
def getItemN : Json → Nat → Except PyError Json
  | .arr xs, i =>
      match xs.get? i with
      | some v => .ok v
      | none => .error .indexError
  | .obj _, _ => .error (.keyError "0")
  | .str s, i =>
      match s.toList.get? i with
      | some c => .ok (.str (String.mk [c]))
      | none => .error .indexError
  | _, _ => .error .typeError

/-- Python truthiness. -/
def pyTruthy : Json → Bool
  | .null => false
  | .bool b => b
  | .int n => n != 0
  | .str s => s != ""
  | .arr xs => !xs.isEmpty
  | .obj kvs => !kvs.isEmpty

/-- Whether the `except requests.exceptions.HTTPError` / `except KeyError`
clauses shared by every network operation catch (and therefore log and
re-raise) the given error.  Any other error escapes the `try` unlogged. -/
def caughtAndLogged : PyError → Bool
  | .httpError => true
  | .keyError _ => true
  | _ => false

/-- An error together with whether it was logged before propagating. -/
abbrev Err := PyError × Bool

/-- Run the body of a `try:` block: an error that the `except` clauses
catch is logged and re-raised; any other error propagates unlogged. -/
def runGuarded {α : Type} : Except PyError α → Except Err α
  | .ok a => .ok a
  | .error e => .error (e, caughtAndLogged e)

/-- Lift an error raised after the `try:` block: it is never logged. -/
def unguarded {α : Type} : Except PyError α → Except Err α
  | .ok a => .ok a
  | .error e => .error (e, false)

/-! ## Player (player.py) -/

/-- Instance state of a `Player`: the identifier, the `_loaded_basic_info`
flag, and the descriptive attributes stored by `setattr` (the instance
dictionary beyond `player_id` and the flag). -/
structure Player where
  player_id : Json
  loaded_basic_info : Bool
  attrs : List (String × Json)
  deriving Repr

/-- `Player.ATTRIBUTE_TO_API_ATTRIBUTE` (player.py lines 11-25), in
declaration order. -/
def Player.ATTRIBUTE_TO_API_ATTRIBUTE : List (String × String) :=
  [("name", "fullName"),
   ("number", "primaryNumber"),
   ("birth_date", "birthDate"),
   ("birth_city", "birthCity"),
   ("birth_state_province", "birthStateProvince"),
   ("birth_country", "birthCountry"),
   ("nationality", "nationality"),
   ("height", "height"),
   ("weight", "weight"),
   ("active", "active"),
   ("rookie", "rookie"),
   ("shoots_catches", "shootsCatches"),
   ("roster_status", "rosterStatus")]

/-- The recognized descriptive field names of a player (the keys of
`ATTRIBUTE_TO_API_ATTRIBUTE`). -/
def Player.attributeNames : List String :=
  Player.ATTRIBUTE_TO_API_ATTRIBUTE.map Prod.fst

/-- `Player.VALID_STATS` (player.py lines 27-40). -/
def Player.VALID_STATS : List String :=
  ["yearByYear", "homeAndAway", "winLoss", "byMonth", "byDayOfWeek",
   "vsDivision", "vsConference", "vsTeam", "gameLog",
   "regularSeasonStatRankings", "goalsByGameSituation",
   "onPaceRegularSeason"]

/-- `Player.__init__` (player.py lines 42-45): stores the identifier and
sets the loaded flag false.  (`self._log` is an external logger object,
not a data attribute of the model.) -/
def Player.mkNew (pid : Json) : Player := ⟨pid, false, []⟩

/-- `Player.get_stats` (player.py lines 47-83).  Returns the result, the
(unchanged) player, and the number of network requests issued. -/
def Player.get_stats (p : Player) (resp : HttpResp) (stats season : String) :
    Except Err Json × Player × Nat :=
  if stats ∉ Player.VALID_STATS then
    (.error (.valueError (stats ++ " is not a valid stat type"), false), p, 0)
  else if stats = "yearByYear" ∧ season ≠ "" then
    (.error (.valueError "Season can\x27t be specified when stats is yearByYear",
      false), p, 0)
  else
    (runGuarded (do
      let body ← requestJson resp
      getItemS body "stats"), p, 1)

/-- Player.py lines 103-104: the `setattr` loop over
`ATTRIBUTE_TO_API_ATTRIBUTE`, storing `data.get(api_attribute, None)` for
every mapped attribute, followed by line 105 setting the loaded flag.
`data.get` on a non-dictionary raises `AttributeError` before any
attribute is stored. -/
def Player.storeBasicInfo (p : Player) (data : Json) : Except PyError Player :=
  match data with
  | .obj kvs =>
      .ok ⟨p.player_id,
        true,
        Player.ATTRIBUTE_TO_API_ATTRIBUTE.foldl
          (fun a q => setAttr a q.1 (pyGetNull kvs q.2)) p.attrs⟩
  | _ => .error (.attributeError "get")

/-- `Player._get_basic_info` (player.py lines 85-105): returns immediately
when already loaded; otherwise issues one request, extracts
`response.json()['people'][0]` inside the `try:` block, and stores the
mapped attributes.  Result, new state, and number of requests issued. -/
def Player.get_basic_info (p : Player) (resp : HttpResp) :
    Except Err Unit × Player × Nat :=
  if p.loaded_basic_info then (.ok (), p, 0)
  else
    match runGuarded (do
        let body ← requestJson resp
        let people ← getItemS body "people"
        getItemN people 0) with
    | .error e => (.error e, p, 1)
    | .ok data =>
        match p.storeBasicInfo data with
        | .ok p' => (.ok (), p', 1)
        | .error e => (.error (e, false), p, 1)

/-- The instance dictionary of a player, as consulted by Python's default
attribute lookup (`__getattribute__`): the identifier, the loaded flag,
and whatever `setattr` has stored. -/
def Player.instanceAttr (p : Player) (name : String) : Option Json :=
  if name = "player_id" then some p.player_id
  else if name = "_loaded_basic_info" then some (.bool p.loaded_basic_info)
  else dget p.attrs name

/-- The second half of `__getattr__`: after the basic-info fetch
completed (or failed), finish the attribute read by consulting the
instance dictionary again — a name still absent raises
`AttributeError`.  Shared by `Player.readAttr` and `Team.readAttr`. -/
def resolveAfterFetch {σ : Type} (instAttr : σ → String → Option Json)
    (fetch : Except Err Unit × σ × Nat) (name : String) :
    Except Err Json × σ × Nat :=
  match fetch.1 with
  | .ok _ =>
      match instAttr fetch.2.1 name with
      | some v => (.ok v, fetch.2.1, fetch.2.2)
      | none => (.error (.attributeError name, false), fetch.2.1, fetch.2.2)
  | .error e => (.error e, fetch.2.1, fetch.2.2)

/-- A full attribute read on a player.  Python consults the instance
dictionary first; only when that fails is `Player.__getattr__`
(player.py lines 107-112) invoked, which triggers `_get_basic_info` for a
recognized descriptive name and then retries the default lookup. -/
def Player.readAttr (p : Player) (resp : HttpResp) (name : String) :
    Except Err Json × Player × Nat :=
  match p.instanceAttr name with
  | some v => (.ok v, p, 0)
  | none =>
      if name ∈ Player.attributeNames then
        resolveAfterFetch Player.instanceAttr (p.get_basic_info resp) name
      else (.error (.attributeError name, false), p, 0)

/-! ## TeamStats (team.py lines 184-214) -/

/-- The `TeamStats` dataclass: 28 fields, all without defaults.  The
Python type annotations (`int` / `float` / `str`) are not enforced at
runtime, so every field holds a `Json` value. -/
structure TeamStats where
  games_played : Json
  wins : Json
  losses : Json
  ot : Json
  pts : Json
  pt_pctg : Json
  goals_per_game : Json
  goals_against_per_game : Json
  ev_gga_ratio : Json
  powerplay_percentage : Json
  powerplay_goals : Json
  powerplay_goals_against : Json
  powerplay_opportunities : Json
  penalty_kill_percentage : Json
  shots_per_game : Json
  shots_allowed_per_game : Json
  win_score_first : Json
  win_opp_score_first : Json
  win_lead_first_per : Json
  win_lead_second_per : Json
  win_outshoot_opp : Json
  win_outshot_by_opp : Json
  faceoffs_taken : Json
  faceoffs_won : Json
  faceoffs_lost : Json
  faceoff_win_percentage : Json
  shooting_pctg : Json
  save_pctg : Json
  deriving Repr

/-- The dataclass field names of `TeamStats`, in declaration order. -/
def TeamStats.fieldNames : List String :=
  ["games_played", "wins", "losses", "ot", "pts", "pt_pctg",
   "goals_per_game", "goals_against_per_game", "ev_gga_ratio",
   "powerplay_percentage", "powerplay_goals", "powerplay_goals_against",
   "powerplay_opportunities", "penalty_kill_percentage", "shots_per_game",
   "shots_allowed_per_game", "win_score_first", "win_opp_score_first",
   "win_lead_first_per", "win_lead_second_per", "win_outshoot_opp",
   "win_outshot_by_opp", "faceoffs_taken", "faceoffs_won",
   "faceoffs_lost", "faceoff_win_percentage", "shooting_pctg",
   "save_pctg"]

/-- The fields of a `TeamStats` value as (name, value) pairs, in
declaration order. -/
def TeamStats.toKVList : TeamStats → List (String × Json)
  | ⟨a1, a2, a3, a4, a5, a6, a7, a8, a9, a10, a11, a12, a13, a14, a15,
     a16, a17, a18, a19, a20, a21, a22, a23, a24, a25, a26, a27, a28⟩ =>
    [("games_played", a1), ("wins", a2), ("losses", a3), ("ot", a4),
     ("pts", a5), ("pt_pctg", a6), ("goals_per_game", a7),
     ("goals_against_per_game", a8), ("ev_gga_ratio", a9),
     ("powerplay_percentage", a10), ("powerplay_goals", a11),
     ("powerplay_goals_against", a12), ("powerplay_opportunities", a13),
     ("penalty_kill_percentage", a14), ("shots_per_game", a15),
     ("shots_allowed_per_game", a16), ("win_score_first", a17),
     ("win_opp_score_first", a18), ("win_lead_first_per", a19),
     ("win_lead_second_per", a20), ("win_outshoot_opp", a21),
     ("win_outshot_by_opp", a22), ("faceoffs_taken", a23),
     ("faceoffs_won", a24), ("faceoffs_lost", a25),
     ("faceoff_win_percentage", a26), ("shooting_pctg", a27),
     ("save_pctg", a28)]

/-- Read one field of a `TeamStats` value by its dataclass name. -/
def TeamStats.getField (ts : TeamStats) (name : String) : Option Json :=
  dget ts.toKVList name

/-- `TeamStats(**kwargs)` (team.py line 175): the dataclass constructor
raises `TypeError` when a required field is missing or an unexpected
keyword is supplied; otherwise it stores the given values. -/
def mkTeamStats (kwargs : List (String × Json)) : Except PyError TeamStats :=
  if (TeamStats.fieldNames.all fun fn => (dget kwargs fn).isSome)
      && (kwargs.all fun q => TeamStats.fieldNames.contains q.1) then
    .ok (TeamStats.mk
      (pyGetNull kwargs "games_played")
      (pyGetNull kwargs "wins")
      (pyGetNull kwargs "losses")
      (pyGetNull kwargs "ot")
      (pyGetNull kwargs "pts")
      (pyGetNull kwargs "pt_pctg")
      (pyGetNull kwargs "goals_per_game")
      (pyGetNull kwargs "goals_against_per_game")
      (pyGetNull kwargs "ev_gga_ratio")
      (pyGetNull kwargs "powerplay_percentage")
      (pyGetNull kwargs "powerplay_goals")
      (pyGetNull kwargs "powerplay_goals_against")
      (pyGetNull kwargs "powerplay_opportunities")
      (pyGetNull kwargs "penalty_kill_percentage")
      (pyGetNull kwargs "shots_per_game")
      (pyGetNull kwargs "shots_allowed_per_game")
      (pyGetNull kwargs "win_score_first")
      (pyGetNull kwargs "win_opp_score_first")
      (pyGetNull kwargs "win_lead_first_per")
      (pyGetNull kwargs "win_lead_second_per")
      (pyGetNull kwargs "win_outshoot_opp")
      (pyGetNull kwargs "win_outshot_by_opp")
      (pyGetNull kwargs "faceoffs_taken")
      (pyGetNull kwargs "faceoffs_won")
      (pyGetNull kwargs "faceoffs_lost")
      (pyGetNull kwargs "faceoff_win_percentage")
      (pyGetNull kwargs "shooting_pctg")
      (pyGetNull kwargs "save_pctg"))
  else .error .typeError

/-! ## Team (team.py) -/

/-- Instance state of a `Team`, analogous to `Player`. -/
structure Team where
  team_id : Json
  loaded_basic_info : Bool
  attrs : List (String × Json)
  deriving Repr

/-- `Team._ATTRIBUTE_TO_API_ATTRIBUTE` (team.py lines 37-44). -/
def Team.ATTRIBUTE_TO_API_ATTRIBUTE : List (String × String) :=
  [("name", "name"),
   ("abbreviation", "abbreviation"),
   ("team_name", "teamName"),
   ("location_name", "locationName"),
   ("first_year_of_play", "firstYearOfPlay"),
   ("active", "active")]

/-- The recognized descriptive field names of a team. -/
def Team.attributeNames : List String :=
  Team.ATTRIBUTE_TO_API_ATTRIBUTE.map Prod.fst

/-- `Team.STATS_API_ATTRIBUTE_TO_STAT_ATTRIBUTE` (team.py lines 46-75). -/
def Team.STATS_API_ATTRIBUTE_TO_STAT_ATTRIBUTE : List (String × String) :=
  [("gamesPlayed", "games_played"),
   ("wins", "wins"),
   ("losses", "losses"),
   ("ot", "ot"),
   ("pts", "pts"),
   ("ptPctg", "pt_pctg"),
   ("goalsPerGame", "goals_per_game"),
   ("goalsAgainstPerGame", "goals_against_per_game"),
   ("evGGARatio", "ev_gga_ratio"),
   ("powerPlayPercentage", "powerplay_percentage"),
   ("powerPlayGoals", "powerplay_goals"),
   ("powerPlayGoalsAgainst", "powerplay_goals_against"),
   ("powerPlayOpportunities", "powerplay_opportunities"),
   ("penaltyKillPercentage", "penalty_kill_percentage"),
   ("shotsPerGame", "shots_per_game"),
   ("shotsAllowed", "shots_allowed_per_game"),
   ("winScoreFirst", "win_score_first"),
   ("winOppScoreFirst", "win_opp_score_first"),
   ("winLeadFirstPer", "win_lead_first_per"),
   ("winLeadSecondPer", "win_lead_second_per"),
   ("winOutshootOpp", "win_outshoot_opp"),
   ("winOutshotByOpp", "win_outshot_by_opp"),
   ("faceOffsTaken", "faceoffs_taken"),
   ("faceOffsWon", "faceoffs_won"),
   ("faceOffsLost", "faceoffs_lost"),
   ("faceOffWinPercentage", "faceoff_win_percentage"),
   ("shootingPctg", "shooting_pctg"),
   ("savePctg", "save_pctg")]

/-- The provider-side keys of the stats mapping table. -/
def Team.statsApiKeys : List String :=
  Team.STATS_API_ATTRIBUTE_TO_STAT_ATTRIBUTE.map Prod.fst

/-- `Team.__init__` (team.py lines 77-79). -/
def Team.mkNew (tid : Json) : Team := ⟨tid, false, []⟩

/-- `Team.load_basic_info` (team.py lines 81-89): the `setattr` loop over
`_ATTRIBUTE_TO_API_ATTRIBUTE` storing `basic_info.get(api_attribute)` for
every mapped attribute, then sets the loaded flag.  `basic_info.get` on a
non-dictionary raises `AttributeError` before any attribute is stored. -/
def Team.load_basic_info (t : Team) (basic_info : Json) : Except PyError Team :=
  match basic_info with
  | .obj kvs =>
      .ok ⟨t.team_id,
        true,
        Team.ATTRIBUTE_TO_API_ATTRIBUTE.foldl
          (fun a q => setAttr a q.1 (pyGetNull kvs q.2)) t.attrs⟩
  | _ => .error (.attributeError "get")

/-- `Team._get_basic_info` (team.py lines 91-108): returns immediately
when already loaded; otherwise issues one request, extracts
`response.json()['teams'][0]` inside the `try:` block, and calls
`load_basic_info` (outside the `try:`, so its errors are unlogged). -/
def Team.get_basic_info (t : Team) (resp : HttpResp) :
    Except Err Unit × Team × Nat :=
  if t.loaded_basic_info then (.ok (), t, 0)
  else
    match runGuarded (do
        let body ← requestJson resp
        let teams ← getItemS body "teams"
        getItemN teams 0) with
    | .error e => (.error e, t, 1)
    | .ok data =>
        match t.load_basic_info data with
        | .ok t' => (.ok (), t', 1)
        | .error e => (.error (e, false), t, 1)

/-- The instance dictionary of a team. -/
def Team.instanceAttr (t : Team) (name : String) : Option Json :=
  if name = "team_id" then some t.team_id
  else if name = "_loaded_basic_info" then some (.bool t.loaded_basic_info)
  else dget t.attrs name

/-- A full attribute read on a team (`Team.__getattr__`, team.py lines
177-182), analogous to `Player.readAttr`. -/
def Team.readAttr (t : Team) (resp : HttpResp) (name : String) :
    Except Err Json × Team × Nat :=
  match t.instanceAttr name with
  | some v => (.ok v, t, 0)
  | none =>
      if name ∈ Team.attributeNames then
        resolveAfterFetch Team.instanceAttr (t.get_basic_info resp) name
      else (.error (.attributeError name, false), t, 0)

/-- Extraction of one roster entry in the list comprehension of
`get_roster` (team.py line 140): `player_info['person']['id']`. -/
def extractPersonId (entry : Json) : Except PyError Json := do
  let person ← getItemS entry "person"
  getItemS person "id"

/-- `Team.get_roster` (team.py lines 110-140): one request, extraction of
`response.json()['teams'][0]['roster']['roster']` inside the `try:`
block, then a list comprehension (outside the `try:`) constructing one
fresh `Player` per entry from `player_info['person']['id']`.  Returns the
result and the number of requests issued. -/
def Team.get_roster (t : Team) (resp : HttpResp) (season : String) :
    Except Err (List Player) × Nat :=
  match runGuarded (do
      let body ← requestJson resp
      let teams ← getItemS body "teams"
      let team0 ← getItemN teams 0
      let roster1 ← getItemS team0 "roster"
      getItemS roster1 "roster") with
  | .error e => (.error e, 1)
  | .ok data =>
      match data with
      | .arr entries =>
          (unguarded (entries.mapM fun entry => do
              let pid ← extractPersonId entry
              pure (Player.mkNew pid)), 1)
      | _ => (.error (.typeError, false), 1)

/-- The dictionary comprehension of `get_team_stats` (team.py lines
171-174): rename every key of the stats payload through
`STATS_API_ATTRIBUTE_TO_STAT_ATTRIBUTE`; an unmapped key raises
`KeyError`. -/
def transformStats (data : List (String × Json)) :
    Except PyError (List (String × Json)) :=
  data.mapM fun q =>
    match dget Team.STATS_API_ATTRIBUTE_TO_STAT_ATTRIBUTE q.1 with
    | some statAttr => .ok (statAttr, q.2)
    | none => .error (.keyError q.1)

/-- `Team.get_team_stats` (team.py lines 142-175): one request, extraction
of `['teams'][0]['teamStats'][0]['splits'][0]['stat']` inside the `try:`
block, then (outside the `try:`) the renaming comprehension and the
`TeamStats(**transformed_data)` construction.  `data.items()` on a
non-dictionary raises `AttributeError`. -/
def Team.get_team_stats (t : Team) (resp : HttpResp) (season : String) :
    Except Err TeamStats × Nat :=
  match runGuarded (do
      let body ← requestJson resp
      let teams ← getItemS body "teams"
      let team0 ← getItemN teams 0
      let teamStats ← getItemS team0 "teamStats"
      let teamStats0 ← getItemN teamStats 0
      let splits ← getItemS teamStats0 "splits"
      let splits0 ← getItemN splits 0
      getItemS splits0 "stat") with
  | .error e => (.error e, 1)
  | .ok data =>
      match data with
      | .obj kvs =>
          (unguarded (do
            let transformed ← transformStats kvs
            mkTeamStats transformed), 1)
      | _ => (.error (.attributeError "items", false), 1)

/-- Body of the loop of `get_teams` (team.py lines 27-32) for one listing
entry: skip it when `only_active` holds and its `active` value is not
truthy (`team_info.get('active', False)`); otherwise construct
`Team(team_id=team_info['id'])` and eagerly populate it with
`load_basic_info(team_info)`. -/
def processTeamEntry (only_active : Bool) (team_info : Json) :
    Except PyError (Option Team) := do
  let skip ←
    if only_active then
      match team_info with
      | .obj kvs => pure (!pyTruthy ((dget kvs "active").getD (Json.bool false)))
      | _ => .error (.attributeError "get")
    else pure false
  if skip then
    return none
  else
    let tid ← getItemS team_info "id"
    let t ← (Team.mkNew tid).load_basic_info team_info
    return (some t)

/-- `get_teams` (team.py lines 13-33): one request for all teams,
extraction of `response.json()['teams']` inside the `try:` block, then
the loop (outside the `try:`) over the entries. -/
def get_teams (resp : HttpResp) (only_active : Bool) :
    Except Err (List Team) × Nat :=
  match runGuarded (do
      let body ← requestJson resp
      getItemS body "teams") with
  | .error e => (.error e, 1)
  | .ok data =>
      match data with
      | .arr entries =>
          (unguarded
            ((entries.mapM (processTeamEntry only_active)).map
              List.reduceOption), 1)
      | _ => (.error (.typeError, false), 1)

/-! ## Association-list toolkit -/

theorem dget_setAttr_self (a : List (String × Json)) (k : String) (v : Json) :
    dget (setAttr a k v) k = some v := by
  induction a with
  | nil => simp [setAttr, dget]
  | cons hd tl ih =>
      obtain ⟨k', v'⟩ := hd
      by_cases h : k' = k
      · subst h; simp [setAttr, dget]
      · simp [setAttr, dget, h, ih]

theorem dget_setAttr_of_ne (a : List (String × Json)) {k k' : String}
    (v : Json) (h : k' ≠ k) : dget (setAttr a k' v) k = dget a k := by
  induction a with
  | nil => simp [setAttr, dget, h]
  | cons hd tl ih =>
      obtain ⟨k'', v''⟩ := hd
      by_cases h2 : k'' = k'
      · subst h2; simp [setAttr, dget, h]
      · simp [setAttr, dget, h2, ih]

theorem dget_foldl_setAttr_not_mem (f : String × String → Json)
    (m : List (String × String)) (init : List (String × Json)) (k : String)
    (h : k ∉ m.map Prod.fst) :
    dget (m.foldl (fun a q => setAttr a q.1 (f q)) init) k = dget init k := by
  induction m generalizing init with
  | nil => rfl
  | cons hd tl ih =>
      simp only [List.map_cons, List.mem_cons, not_or] at h
      simp only [List.foldl_cons]
      rw [ih _ h.2, dget_setAttr_of_ne _ _ (fun e => h.1 e.symm)]

theorem dget_foldl_setAttr (f : String × String → Json)
    (m : List (String × String)) (init : List (String × Json))
    (attr api : String) (hnd : (m.map Prod.fst).Nodup)
    (hmem : (attr, api) ∈ m) :
    dget (m.foldl (fun a q => setAttr a q.1 (f q)) init) attr
      = some (f (attr, api)) := by
  induction m generalizing init with
  | nil => cases hmem
  | cons hd tl ih =>
      simp only [List.map_cons, List.nodup_cons] at hnd
      simp only [List.foldl_cons]
      rcases List.mem_cons.mp hmem with heq | htl
      · subst heq
        rw [dget_foldl_setAttr_not_mem _ _ _ _ hnd.1, dget_setAttr_self]
      · exact ih _ hnd.2 htl

theorem dget_isSome_of_mem {α : Type} {l : List (String × α)} {k : String}
    {v : α} (h : (k, v) ∈ l) : (dget l k).isSome := by
  induction l with
  | nil => cases h
  | cons hd tl ih =>
      obtain ⟨k', v'⟩ := hd
      rcases List.mem_cons.mp h with heq | htl
      · cases heq; simp [dget]
      · by_cases h2 : k' = k
        · simp [dget, h2]
        · simp only [dget, h2, if_false]; exact ih htl

theorem dget_eq_some_mem {α : Type} {l : List (String × α)} {k : String}
    {v : α} (h : dget l k = some v) : (k, v) ∈ l := by
  induction l with
  | nil => cases h
  | cons hd tl ih =>
      obtain ⟨k', v'⟩ := hd
      by_cases h2 : k' = k
      · subst h2
        have h' : v' = v := by simpa [dget] using h
        subst h'
        exact List.mem_cons_self _ _
      · simp only [dget, h2, if_false] at h
        exact List.mem_cons_of_mem _ (ih h)

theorem dget_none_not_mem {α : Type} {l : List (String × α)} {k : String}
    {v : α} (h : dget l k = none) : (k, v) ∉ l := by
  intro hm
  have := dget_isSome_of_mem hm
  rw [h] at this
  cases this

theorem dget_of_mem_keys_nodup {α : Type} {l : List (String × α)}
    {k : String} {v : α} (hnd : (l.map Prod.fst).Nodup) (h : (k, v) ∈ l) :
    dget l k = some v := by
  induction l with
  | nil => cases h
  | cons hd tl ih =>
      obtain ⟨k', v'⟩ := hd
      simp only [List.map_cons, List.nodup_cons] at hnd
      rcases List.mem_cons.mp h with heq | htl
      · cases heq; simp [dget]
      · have hk : k' ≠ k := by
          intro e
          subst e
          exact hnd.1 (List.mem_map_of_mem Prod.fst htl)
        simp only [dget, hk, if_false]
        exact ih hnd.2 htl

theorem mem_snd_nodup_inj {l : List (String × String)}
    (hnd : (l.map Prod.snd).Nodup) {a b c : String}
    (ha : (a, c) ∈ l) (hb : (b, c) ∈ l) : a = b := by
  induction l with
  | nil => cases ha
  | cons hd tl ih =>
      obtain ⟨x, y⟩ := hd
      simp only [List.map_cons, List.nodup_cons] at hnd
      rcases List.mem_cons.mp ha with hea | hta
      · rcases List.mem_cons.mp hb with heb | htb
        · cases hea; cases heb; rfl
        · cases hea
          exact absurd (List.mem_map_of_mem Prod.snd htb) hnd.1
      · rcases List.mem_cons.mp hb with heb | htb
        · cases heb
          exact absurd (List.mem_map_of_mem Prod.snd hta) hnd.1
        · exact ih hnd.2 hta htb

/-! ## Facts about the fixed mapping tables -/

theorem player_map_keys_nodup :
    (Player.ATTRIBUTE_TO_API_ATTRIBUTE.map Prod.fst).Nodup := by decide

theorem team_map_keys_nodup :
    (Team.ATTRIBUTE_TO_API_ATTRIBUTE.map Prod.fst).Nodup := by decide

theorem player_field_not_builtin : ∀ name ∈ Player.attributeNames,
    name ≠ "player_id" ∧ name ≠ "_loaded_basic_info" := by decide

theorem team_field_not_builtin : ∀ name ∈ Team.attributeNames,
    name ≠ "team_id" ∧ name ≠ "_loaded_basic_info" := by decide

theorem player_attr_exists_api {name : String}
    (h : name ∈ Player.attributeNames) :
    ∃ api, (name, api) ∈ Player.ATTRIBUTE_TO_API_ATTRIBUTE := by
  obtain ⟨q, hq, hfst⟩ := List.mem_map.mp h
  exact ⟨q.2, by rwa [show (name, q.2) = q from by rw [← hfst]]⟩

theorem team_attr_exists_api {name : String}
    (h : name ∈ Team.attributeNames) :
    ∃ api, (name, api) ∈ Team.ATTRIBUTE_TO_API_ATTRIBUTE := by
  obtain ⟨q, hq, hfst⟩ := List.mem_map.mp h
  exact ⟨q.2, by rwa [show (name, q.2) = q from by rw [← hfst]]⟩

/-! ## Characterizations of the basic-info fetch -/

theorem player_instanceAttr_eq_dget (p : Player) {name : String}
    (h1 : name ≠ "player_id") (h2 : name ≠ "_loaded_basic_info") :
    p.instanceAttr name = dget p.attrs name := by
  simp [Player.instanceAttr, h1, h2]

theorem team_instanceAttr_eq_dget (t : Team) {name : String}
    (h1 : name ≠ "team_id") (h2 : name ≠ "_loaded_basic_info") :
    t.instanceAttr name = dget t.attrs name := by
  simp [Team.instanceAttr, h1, h2]

theorem player_basic_info_loaded (p : Player) (resp : HttpResp)
    (h : p.loaded_basic_info = true) :
    p.get_basic_info resp = (.ok (), p, 0) := by
  simp [Player.get_basic_info, h]

theorem team_basic_info_loaded (t : Team) (resp : HttpResp)
    (h : t.loaded_basic_info = true) :
    t.get_basic_info resp = (.ok (), t, 0) := by
  simp [Team.get_basic_info, h]

theorem player_basic_info_not_loaded (p : Player) (resp : HttpResp)
    (h : p.loaded_basic_info = false) :
    p.get_basic_info resp =
      match runGuarded (do
          let body ← requestJson resp
          let people ← getItemS body "people"
          getItemN people 0) with
      | .error e => (.error e, p, 1)
      | .ok data =>
          match p.storeBasicInfo data with
          | .ok p' => (.ok (), p', 1)
          | .error e => (.error (e, false), p, 1) := by
  simp [Player.get_basic_info, h]

theorem team_basic_info_not_loaded (t : Team) (resp : HttpResp)
    (h : t.loaded_basic_info = false) :
    t.get_basic_info resp =
      match runGuarded (do
          let body ← requestJson resp
          let teams ← getItemS body "teams"
          getItemN teams 0) with
      | .error e => (.error e, t, 1)
      | .ok data =>
          match t.load_basic_info data with
          | .ok t' => (.ok (), t', 1)
          | .error e => (.error (e, false), t, 1) := by
  simp [Team.get_basic_info, h]

theorem Player.storeBasicInfo_props (p : Player)
    (kvs : List (String × Json)) (p' : Player)
    (h : p.storeBasicInfo (.obj kvs) = .ok p') :
    p'.loaded_basic_info = true ∧
      ∀ attr api, (attr, api) ∈ Player.ATTRIBUTE_TO_API_ATTRIBUTE →
        dget p'.attrs attr = some (pyGetNull kvs api) := by
  have hp : p' = ⟨p.player_id, true,
      Player.ATTRIBUTE_TO_API_ATTRIBUTE.foldl
        (fun a q => setAttr a q.1 (pyGetNull kvs q.2)) p.attrs⟩ := by
    cases h; rfl
  subst hp
  refine ⟨rfl, fun attr api hmem => ?_⟩
  exact dget_foldl_setAttr (fun q => pyGetNull kvs q.2) _ _ _ _
    player_map_keys_nodup hmem

theorem Team.load_basic_info_props (t : Team)
    (kvs : List (String × Json)) (t' : Team)
    (h : t.load_basic_info (.obj kvs) = .ok t') :
    t'.loaded_basic_info = true ∧
      ∀ attr api, (attr, api) ∈ Team.ATTRIBUTE_TO_API_ATTRIBUTE →
        dget t'.attrs attr = some (pyGetNull kvs api) := by
  have ht : t' = ⟨t.team_id, true,
      Team.ATTRIBUTE_TO_API_ATTRIBUTE.foldl
        (fun a q => setAttr a q.1 (pyGetNull kvs q.2)) t.attrs⟩ := by
    cases h; rfl
  subst ht
  refine ⟨rfl, fun attr api hmem => ?_⟩
  exact dget_foldl_setAttr (fun q => pyGetNull kvs q.2) _ _ _ _
    team_map_keys_nodup hmem

theorem player_readAttr_of_some (p : Player) (resp : HttpResp)
    {name : String} {v : Json} (h : p.instanceAttr name = some v) :
    p.readAttr resp name = (.ok v, p, 0) := by
  simp [Player.readAttr, h]

theorem team_readAttr_of_some (t : Team) (resp : HttpResp)
    {name : String} {v : Json} (h : t.instanceAttr name = some v) :
    t.readAttr resp name = (.ok v, t, 0) := by
  simp [Team.readAttr, h]

theorem player_basic_info_count (p : Player) (resp : HttpResp)
    (hl : p.loaded_basic_info = false) :
    (p.get_basic_info resp).2.2 = 1 := by
  rw [player_basic_info_not_loaded p resp hl]
  split
  · rfl
  · split <;> rfl

theorem team_basic_info_count (t : Team) (resp : HttpResp)
    (hl : t.loaded_basic_info = false) :
    (t.get_basic_info resp).2.2 = 1 := by
  rw [team_basic_info_not_loaded t resp hl]
  split
  · rfl
  · split <;> rfl

theorem player_basic_info_ok_inv (p : Player) (resp : HttpResp)
    {p' : Player} {n : Nat} (hl : p.loaded_basic_info = false)
    (h : p.get_basic_info resp = (.ok (), p', n)) :
    n = 1 ∧ ∃ kvs, p.storeBasicInfo (.obj kvs) = .ok p' := by
  rw [player_basic_info_not_loaded p resp hl] at h
  split at h
  · simp at h
  · rename_i data heq
    split at h
    · rename_i p'' heq2
      simp only [Prod.mk.injEq] at h
      obtain ⟨-, hp, hn⟩ := h
      subst hp
      refine ⟨hn.symm, ?_⟩
      cases data
      case obj kvs => exact ⟨kvs, heq2⟩
      all_goals simp [Player.storeBasicInfo] at heq2
    · simp at h

theorem player_basic_info_error_inv (p : Player) (resp : HttpResp)
    {e : Err} {p' : Player} {n : Nat} (hl : p.loaded_basic_info = false)
    (h : p.get_basic_info resp = (.error e, p', n)) : p' = p ∧ n = 1 := by
  rw [player_basic_info_not_loaded p resp hl] at h
  split at h
  · simp only [Prod.mk.injEq] at h
    exact ⟨h.2.1.symm, h.2.2.symm⟩
  · split at h
    · simp at h
    · simp only [Prod.mk.injEq] at h
      exact ⟨h.2.1.symm, h.2.2.symm⟩

theorem team_basic_info_ok_inv (t : Team) (resp : HttpResp)
    {t' : Team} {n : Nat} (hl : t.loaded_basic_info = false)
    (h : t.get_basic_info resp = (.ok (), t', n)) :
    n = 1 ∧ ∃ kvs, t.load_basic_info (.obj kvs) = .ok t' := by
  rw [team_basic_info_not_loaded t resp hl] at h
  split at h
  · simp at h
  · rename_i data heq
    split at h
    · rename_i t'' heq2
      simp only [Prod.mk.injEq] at h
      obtain ⟨-, hp, hn⟩ := h
      subst hp
      refine ⟨hn.symm, ?_⟩
      cases data
      case obj kvs => exact ⟨kvs, heq2⟩
      all_goals simp [Team.load_basic_info] at heq2
    · simp at h

theorem team_basic_info_error_inv (t : Team) (resp : HttpResp)
    {e : Err} {t' : Team} {n : Nat} (hl : t.loaded_basic_info = false)
    (h : t.get_basic_info resp = (.error e, t', n)) : t' = t ∧ n = 1 := by
  rw [team_basic_info_not_loaded t resp hl] at h
  split at h
  · simp only [Prod.mk.injEq] at h
    exact ⟨h.2.1.symm, h.2.2.symm⟩
  · split at h
    · simp at h
    · simp only [Prod.mk.injEq] at h
      exact ⟨h.2.1.symm, h.2.2.symm⟩

theorem player_readAttr_count (p : Player) (resp : HttpResp) {name : String}
    (hname : name ∈ Player.attributeNames) (hi : p.instanceAttr name = none) :
    (p.readAttr resp name).2.2 = (p.get_basic_info resp).2.2 := by
  simp only [Player.readAttr, hi]
  rw [if_pos hname]
  rcases hg : p.get_basic_info resp with ⟨r, p', n⟩
  rcases r with e | u
  · simp [resolveAfterFetch]
  · rcases hv : p'.instanceAttr name with _ | v <;>
      simp [resolveAfterFetch, hv]

theorem team_readAttr_count (t : Team) (resp : HttpResp) {name : String}
    (hname : name ∈ Team.attributeNames) (hi : t.instanceAttr name = none) :
    (t.readAttr resp name).2.2 = (t.get_basic_info resp).2.2 := by
  simp only [Team.readAttr, hi]
  rw [if_pos hname]
  rcases hg : t.get_basic_info resp with ⟨r, t', n⟩
  rcases r with e | u
  · simp [resolveAfterFetch]
  · rcases hv : t'.instanceAttr name with _ | v <;>
      simp [resolveAfterFetch, hv]

theorem player_readAttr_ok_inv (p : Player) (resp : HttpResp)
    {name : String} {v : Json} {p' : Player} {n : Nat}
    (hname : name ∈ Player.attributeNames) (hi : p.instanceAttr name = none)
    (hl : p.loaded_basic_info = false)
    (h : p.readAttr resp name = (.ok v, p', n)) :
    ∃ kvs, p.storeBasicInfo (.obj kvs) = .ok p' := by
  simp only [Player.readAttr, hi] at h
  rw [if_pos hname] at h
  rcases hg : p.get_basic_info resp with ⟨r, p'', n'⟩
  rw [hg] at h
  rcases r with e | u
  · simp [resolveAfterFetch] at h
  · cases u
    rcases hv : p''.instanceAttr name with _ | v2
    · simp [resolveAfterFetch, hv] at h
    · simp only [resolveAfterFetch, hv] at h
      simp only [Prod.mk.injEq] at h
      obtain ⟨-, hp, -⟩ := h
      subst hp
      exact (player_basic_info_ok_inv p resp hl hg).2

theorem team_readAttr_ok_inv (t : Team) (resp : HttpResp)
    {name : String} {v : Json} {t' : Team} {n : Nat}
    (hname : name ∈ Team.attributeNames) (hi : t.instanceAttr name = none)
    (hl : t.loaded_basic_info = false)
    (h : t.readAttr resp name = (.ok v, t', n)) :
    ∃ kvs, t.load_basic_info (.obj kvs) = .ok t' := by
  simp only [Team.readAttr, hi] at h
  rw [if_pos hname] at h
  rcases hg : t.get_basic_info resp with ⟨r, t'', n'⟩
  rw [hg] at h
  rcases r with e | u
  · simp [resolveAfterFetch] at h
  · cases u
    rcases hv : t''.instanceAttr name with _ | v2
    · simp [resolveAfterFetch, hv] at h
    · simp only [resolveAfterFetch, hv] at h
      simp only [Prod.mk.injEq] at h
      obtain ⟨-, hp, -⟩ := h
      subst hp
      exact (team_basic_info_ok_inv t resp hl hg).2

theorem player_loaded_attrs_read (p p' : Player) (resp : HttpResp)
    (kvs : List (String × Json))
    (h : p.storeBasicInfo (.obj kvs) = .ok p')
    {name : String} (hname : name ∈ Player.attributeNames) :
    ∃ v, p'.readAttr resp name = (.ok v, p', 0) := by
  obtain ⟨hload, hattr⟩ := Player.storeBasicInfo_props p kvs p' h
  obtain ⟨api, hapi⟩ := player_attr_exists_api hname
  have hnb := player_field_not_builtin name hname
  have hsome : p'.instanceAttr name = some (pyGetNull kvs api) := by
    rw [player_instanceAttr_eq_dget _ hnb.1 hnb.2]
    exact hattr _ _ hapi
  exact ⟨_, player_readAttr_of_some _ _ hsome⟩

theorem team_loaded_attrs_read (t t' : Team) (resp : HttpResp)
    (kvs : List (String × Json))
    (h : t.load_basic_info (.obj kvs) = .ok t')
    {name : String} (hname : name ∈ Team.attributeNames) :
    ∃ v, t'.readAttr resp name = (.ok v, t', 0) := by
  obtain ⟨hload, hattr⟩ := Team.load_basic_info_props t kvs t' h
  obtain ⟨api, hapi⟩ := team_attr_exists_api hname
  have hnb := team_field_not_builtin name hname
  have hsome : t'.instanceAttr name = some (pyGetNull kvs api) := by
    rw [team_instanceAttr_eq_dget _ hnb.1 hnb.2]
    exact hattr _ _ hapi
  exact ⟨_, team_readAttr_of_some _ _ hsome⟩

/-! ## Sample provider responses used by the concrete witnesses -/

/-- A basic-info response body for a player. -/
def samplePlayerBody : Json :=
  .obj [("people", .arr [.obj [("fullName", .str "Wayne")]])]

/-- A basic-info response body for a team. -/
def sampleTeamBody : Json :=
  .obj [("teams", .arr [.obj [("name", .str "Foo"),
    ("abbreviation", .str "FOO")]])]

/-! ## Claims -/

/-- C1: for both entity types the basic-info fetch is idempotent — when
the loaded flag is already true it returns immediately with no network
call and no state change; reading one recognized descriptive field on a
fresh entity issues exactly one request; and once a first read has
succeeded, every further recognized-field read and every further fetch
invocation issues zero additional requests. -/
theorem basic_info_fetch_idempotent :
    (∀ (resp : HttpResp) (p : Player), p.loaded_basic_info = true →
        p.get_basic_info resp = (.ok (), p, 0)) ∧
    (∀ (resp : HttpResp) (t : Team), t.loaded_basic_info = true →
        t.get_basic_info resp = (.ok (), t, 0)) ∧
    (∀ (resp : HttpResp) (pid : Json) (name : String),
        name ∈ Player.attributeNames →
        ((Player.mkNew pid).readAttr resp name).2.2 = 1) ∧
    (∀ (resp resp2 : HttpResp) (pid : Json) (name name2 : String)
        (v : Json) (p' : Player),
        name ∈ Player.attributeNames → name2 ∈ Player.attributeNames →
        (Player.mkNew pid).readAttr resp name = (.ok v, p', 1) →
        (∃ v2, p'.readAttr resp2 name2 = (.ok v2, p', 0)) ∧
          p'.get_basic_info resp2 = (.ok (), p', 0)) ∧
    (∀ (resp : HttpResp) (tid : Json) (name : String),
        name ∈ Team.attributeNames →
        ((Team.mkNew tid).readAttr resp name).2.2 = 1) ∧
    (∀ (resp resp2 : HttpResp) (tid : Json) (name name2 : String)
        (v : Json) (t' : Team),
        name ∈ Team.attributeNames → name2 ∈ Team.attributeNames →
        (Team.mkNew tid).readAttr resp name = (.ok v, t', 1) →
        (∃ v2, t'.readAttr resp2 name2 = (.ok v2, t', 0)) ∧
          t'.get_basic_info resp2 = (.ok (), t', 0)) := by
  refine ⟨fun resp p h => player_basic_info_loaded p resp h,
    fun resp t h => team_basic_info_loaded t resp h,
    fun resp pid name hname => ?_,
    fun resp resp2 pid name name2 v p' hname hname2 h => ?_,
    fun resp tid name hname => ?_,
    fun resp resp2 tid name name2 v t' hname hname2 h => ?_⟩
  · have hnb := player_field_not_builtin name hname
    have hi : (Player.mkNew pid).instanceAttr name = none := by
      rw [player_instanceAttr_eq_dget _ hnb.1 hnb.2]
      rfl
    rw [player_readAttr_count _ _ hname hi]
    exact player_basic_info_count _ _ rfl
  · have hnb := player_field_not_builtin name hname
    have hi : (Player.mkNew pid).instanceAttr name = none := by
      rw [player_instanceAttr_eq_dget _ hnb.1 hnb.2]
      rfl
    obtain ⟨kvs, hstore⟩ := player_readAttr_ok_inv _ _ hname hi rfl h
    exact ⟨player_loaded_attrs_read _ _ resp2 _ hstore hname2,
      player_basic_info_loaded _ _
        (Player.storeBasicInfo_props _ _ _ hstore).1⟩
  · have hnb := team_field_not_builtin name hname
    have hi : (Team.mkNew tid).instanceAttr name = none := by
      rw [team_instanceAttr_eq_dget _ hnb.1 hnb.2]
      rfl
    rw [team_readAttr_count _ _ hname hi]
    exact team_basic_info_count _ _ rfl
  · have hnb := team_field_not_builtin name hname
    have hi : (Team.mkNew tid).instanceAttr name = none := by
      rw [team_instanceAttr_eq_dget _ hnb.1 hnb.2]
      rfl
    obtain ⟨kvs, hload⟩ := team_readAttr_ok_inv _ _ hname hi rfl h
    exact ⟨team_loaded_attrs_read _ _ resp2 _ hload hname2,
      team_basic_info_loaded _ _
        (Team.load_basic_info_props _ _ _ hload).1⟩

/-- Witness for C1 at concrete inputs: a loaded player fetch is a no-op,
a fresh read of `name` issues one request, and the subsequent read of
`height` (and of `abbreviation` for the team) issues zero requests even
when the network would fail. -/
theorem basic_info_fetch_idempotent_witness :
    ((Player.mk (.int 9) true []).loaded_basic_info = true ∧
      (Player.mk (.int 9) true []).get_basic_info .transport
        = (.ok (), Player.mk (.int 9) true [], 0)) ∧
    ("name" ∈ Player.attributeNames ∧
      ((Player.mkNew (.int 9)).readAttr (.ok samplePlayerBody) "name").2.2
        = 1) ∧
    (∃ p' : Player,
      (Player.mkNew (.int 9)).readAttr (.ok samplePlayerBody) "name"
          = (.ok (.str "Wayne"), p', 1) ∧
        (∃ v2, p'.readAttr .transport "height" = (.ok v2, p', 0)) ∧
        p'.get_basic_info .transport = (.ok (), p', 0)) ∧
    (∃ t' : Team,
      (Team.mkNew (.int 5)).readAttr (.ok sampleTeamBody) "name"
          = (.ok (.str "Foo"), t', 1) ∧
        (∃ v2, t'.readAttr .transport "abbreviation" = (.ok v2, t', 0)) ∧
        t'.get_basic_info .transport = (.ok (), t', 0)) :=
  ⟨⟨rfl, basic_info_fetch_idempotent.1 .transport (Player.mk (.int 9) true [])
      rfl⟩,
   ⟨by decide, basic_info_fetch_idempotent.2.2.1 (.ok samplePlayerBody)
      (.int 9) "name" (by decide)⟩,
   ⟨_, rfl, basic_info_fetch_idempotent.2.2.2.1 (.ok samplePlayerBody)
      .transport (.int 9) "name" "height" (.str "Wayne") _ (by decide)
      (by decide) rfl⟩,
   ⟨_, rfl, basic_info_fetch_idempotent.2.2.2.2.2 (.ok sampleTeamBody)
      .transport (.int 5) "name" "abbreviation" (.str "Foo") _ (by decide)
      (by decide) rfl⟩⟩

/-- C2: population is all-or-nothing — a failed basic-info fetch leaves
the loaded flag false and the entity entirely unchanged (no descriptive
attribute set), while a successful fetch sets the flag true and stores
every recognized descriptive attribute. -/
theorem basic_info_all_or_nothing :
    (∀ (resp : HttpResp) (p : Player) (e : Err) (p' : Player) (n : Nat),
        p.loaded_basic_info = false →
        p.get_basic_info resp = (.error e, p', n) → p' = p) ∧
    (∀ (resp : HttpResp) (p p' : Player) (n : Nat),
        p.loaded_basic_info = false →
        p.get_basic_info resp = (.ok (), p', n) →
        p'.loaded_basic_info = true ∧
          ∀ name ∈ Player.attributeNames, (dget p'.attrs name).isSome) ∧
    (∀ (resp : HttpResp) (t : Team) (e : Err) (t' : Team) (n : Nat),
        t.loaded_basic_info = false →
        t.get_basic_info resp = (.error e, t', n) → t' = t) ∧
    (∀ (resp : HttpResp) (t t' : Team) (n : Nat),
        t.loaded_basic_info = false →
        t.get_basic_info resp = (.ok (), t', n) →
        t'.loaded_basic_info = true ∧
          ∀ name ∈ Team.attributeNames, (dget t'.attrs name).isSome) := by
  refine ⟨fun resp p e p' n hl h =>
      (player_basic_info_error_inv p resp hl h).1,
    fun resp p p' n hl h => ?_,
    fun resp t e t' n hl h =>
      (team_basic_info_error_inv t resp hl h).1,
    fun resp t t' n hl h => ?_⟩
  · obtain ⟨-, kvs, hstore⟩ := player_basic_info_ok_inv p resp hl h
    obtain ⟨hload, hattr⟩ := Player.storeBasicInfo_props p kvs p' hstore
    refine ⟨hload, fun name hname => ?_⟩
    obtain ⟨api, hapi⟩ := player_attr_exists_api hname
    rw [hattr _ _ hapi]
    rfl
  · obtain ⟨-, kvs, hload2⟩ := team_basic_info_ok_inv t resp hl h
    obtain ⟨hload, hattr⟩ := Team.load_basic_info_props t kvs t' hload2
    refine ⟨hload, fun name hname => ?_⟩
    obtain ⟨api, hapi⟩ := team_attr_exists_api hname
    rw [hattr _ _ hapi]
    rfl

/-- Witness for C2 at concrete inputs: a transport failure leaves the
fresh entity unchanged, and a successful fetch populates everything. -/
theorem basic_info_all_or_nothing_witness :
    ((Player.mkNew (.int 9)).loaded_basic_info = false ∧
      ∃ p' : Player, (Player.mkNew (.int 9)).get_basic_info .transport
          = (.error (.httpError, true), p', 1) ∧ p' = Player.mkNew (.int 9)) ∧
    (∃ p' : Player, (Player.mkNew (.int 9)).get_basic_info
          (.ok samplePlayerBody) = (.ok (), p', 1) ∧
        p'.loaded_basic_info = true ∧
        ∀ name ∈ Player.attributeNames, (dget p'.attrs name).isSome) ∧
    ((Team.mkNew (.int 5)).loaded_basic_info = false ∧
      ∃ t' : Team, (Team.mkNew (.int 5)).get_basic_info .transport
          = (.error (.httpError, true), t', 1) ∧ t' = Team.mkNew (.int 5)) ∧
    (∃ t' : Team, (Team.mkNew (.int 5)).get_basic_info (.ok sampleTeamBody)
          = (.ok (), t', 1) ∧
        t'.loaded_basic_info = true ∧
        ∀ name ∈ Team.attributeNames, (dget t'.attrs name).isSome) :=
  ⟨⟨rfl, ⟨_, rfl, basic_info_all_or_nothing.1 .transport (Player.mkNew (.int 9))
      (.httpError, true) _ 1 rfl rfl⟩⟩,
   ⟨_, rfl, basic_info_all_or_nothing.2.1 (.ok samplePlayerBody)
      (Player.mkNew (.int 9)) _ 1 rfl rfl⟩,
   ⟨rfl, ⟨_, rfl, basic_info_all_or_nothing.2.2.1 .transport
      (Team.mkNew (.int 5)) (.httpError, true) _ 1 rfl rfl⟩⟩,
   ⟨_, rfl, basic_info_all_or_nothing.2.2.2 (.ok sampleTeamBody)
      (Team.mkNew (.int 5)) _ 1 rfl rfl⟩⟩

/-- C3 is refuted at a concrete input: on a fresh team, reading the
unrecognized attribute name `foo` yields an `AttributeError` failure —
not an absent/null value — although it indeed makes no network request
(the request count is 0 and the state is unchanged). -/
theorem unrecognized_attribute_counterexample :
    (Team.mkNew (.int 1)).readAttr .transport "foo"
      = (.error (.attributeError "foo", false), Team.mkNew (.int 1), 0) :=
  rfl

/-- C3 (amended): reading an attribute name that is neither a recognized
descriptive field nor already present in the instance dictionary raises
`AttributeError` — it does not return a null value — and makes no network
request, leaving the entity unchanged. -/
theorem unrecognized_attribute_error_no_network :
    (∀ (resp : HttpResp) (p : Player) (name : String),
        name ∉ Player.attributeNames → p.instanceAttr name = none →
        p.readAttr resp name
          = (.error (.attributeError name, false), p, 0)) ∧
    (∀ (resp : HttpResp) (t : Team) (name : String),
        name ∉ Team.attributeNames → t.instanceAttr name = none →
        t.readAttr resp name
          = (.error (.attributeError name, false), t, 0)) := by
  constructor
  · intro resp p name h hi
    simp [Player.readAttr, hi, h]
  · intro resp t name h hi
    simp [Team.readAttr, hi, h]

/-- Witness for the amended C3 at concrete inputs. -/
theorem unrecognized_attribute_error_no_network_witness :
    ("foo" ∉ Player.attributeNames ∧
      (Player.mkNew (.int 3)).instanceAttr "foo" = none ∧
      (Player.mkNew (.int 3)).readAttr .transport "foo"
        = (.error (.attributeError "foo", false), Player.mkNew (.int 3), 0)) ∧
    ("bar" ∉ Team.attributeNames ∧
      (Team.mkNew (.int 4)).instanceAttr "bar" = none ∧
      (Team.mkNew (.int 4)).readAttr .transport "bar"
        = (.error (.attributeError "bar", false), Team.mkNew (.int 4), 0)) :=
  ⟨⟨by decide, rfl,
      unrecognized_attribute_error_no_network.1 .transport _ _ (by decide)
        rfl⟩,
   ⟨by decide, rfl,
      unrecognized_attribute_error_no_network.2 .transport _ _ (by decide)
        rfl⟩⟩

/-- The team basic-info response of the C4 example:
`{"teams":[{"id":5,"name":"Foo","abbreviation":"FOO"}]}`. -/
def c4TeamBody : Json :=
  .obj [("teams", .arr [.obj [("id", .int 5), ("name", .str "Foo"),
    ("abbreviation", .str "FOO")]])]

/-- C4: every field of the fixed name-mapping table is stored by a
successful basic-info load — a field present in the response under its
stored value, a field absent in the response as null — without failure;
and on the concrete response for team 5, `name` reads `"Foo"` and
`abbreviation` reads `"FOO"` with no further network call (the second
read succeeds with request count 0 even against a dead network),
while the absent `team_name` reads null. -/
theorem basic_info_mapping_total :
    (∀ (p : Player) (kvs : List (String × Json)) (attr api : String),
        (attr, api) ∈ Player.ATTRIBUTE_TO_API_ATTRIBUTE →
        ∃ p', p.storeBasicInfo (.obj kvs) = .ok p' ∧
          p'.instanceAttr attr = some (pyGetNull kvs api)) ∧
    (∀ (t : Team) (kvs : List (String × Json)) (attr api : String),
        (attr, api) ∈ Team.ATTRIBUTE_TO_API_ATTRIBUTE →
        ∃ t', t.load_basic_info (.obj kvs) = .ok t' ∧
          t'.instanceAttr attr = some (pyGetNull kvs api)) ∧
    (∃ t5 : Team,
      (Team.mkNew (.int 5)).readAttr (.ok c4TeamBody) "name"
          = (.ok (.str "Foo"), t5, 1) ∧
        t5.readAttr .transport "abbreviation" = (.ok (.str "FOO"), t5, 0) ∧
        t5.readAttr .transport "team_name" = (.ok .null, t5, 0)) := by
  refine ⟨fun p kvs attr api hmem => ?_, fun t kvs attr api hmem => ?_,
    ⟨_, rfl, rfl, rfl⟩⟩
  · refine ⟨_, rfl, ?_⟩
    have hattr := (Player.storeBasicInfo_props p kvs _ rfl).2 _ _ hmem
    have hnb := player_field_not_builtin attr
      (List.mem_map_of_mem Prod.fst hmem)
    rw [player_instanceAttr_eq_dget _ hnb.1 hnb.2]
    exact hattr
  · refine ⟨_, rfl, ?_⟩
    have hattr := (Team.load_basic_info_props t kvs _ rfl).2 _ _ hmem
    have hnb := team_field_not_builtin attr
      (List.mem_map_of_mem Prod.fst hmem)
    rw [team_instanceAttr_eq_dget _ hnb.1 hnb.2]
    exact hattr

/-- Witness for C4 at concrete inputs: the `name`/`fullName` pair of the
player table on an empty response dictionary (stored as null), and the
`team_name`/`teamName` pair of the team table on a response carrying
`teamName`. -/
theorem basic_info_mapping_total_witness :
    (("name", "fullName") ∈ Player.ATTRIBUTE_TO_API_ATTRIBUTE ∧
      ∃ p', (Player.mkNew (.int 2)).storeBasicInfo (.obj []) = .ok p' ∧
        p'.instanceAttr "name" = some (pyGetNull [] "fullName")) ∧
    (("team_name", "teamName") ∈ Team.ATTRIBUTE_TO_API_ATTRIBUTE ∧
      ∃ t', (Team.mkNew (.int 2)).load_basic_info
            (.obj [("teamName", .str "Sharks")]) = .ok t' ∧
        t'.instanceAttr "team_name"
          = some (pyGetNull [("teamName", .str "Sharks")] "teamName")) :=
  ⟨⟨by decide,
      basic_info_mapping_total.1 (Player.mkNew (.int 2)) [] "name" "fullName"
        (by decide)⟩,
   ⟨by decide,
      basic_info_mapping_total.2.1 (Team.mkNew (.int 2))
        [("teamName", .str "Sharks")] "team_name" "teamName" (by decide)⟩⟩

/-- C5: `get_stats` raises `ValueError` before any network access when the
stat type is not in the twelve-entry allow-list, and when the stat type is
`yearByYear` with a non-empty season; in both cases no request is issued
(count 0) and the player is unchanged. -/
theorem get_stats_validates_before_network :
    Player.VALID_STATS.length = 12 ∧
    (∀ (resp : HttpResp) (p : Player) (stats season : String),
        stats ∉ Player.VALID_STATS →
        p.get_stats resp stats season
          = (.error (.valueError (stats ++ " is not a valid stat type"),
              false), p, 0)) ∧
    (∀ (resp : HttpResp) (p : Player) (season : String), season ≠ "" →
        p.get_stats resp "yearByYear" season
          = (.error (.valueError
              "Season can\x27t be specified when stats is yearByYear",
              false), p, 0)) := by
  refine ⟨rfl, fun resp p stats season h => ?_, fun resp p season h => ?_⟩
  · simp [Player.get_stats, h]
  · have hv : ("yearByYear" : String) ∈ Player.VALID_STATS := by decide
    simp [Player.get_stats, hv, h]

/-- Witness for C5 at concrete inputs: the unrecognized stat type `bogus`
and the pair (`yearByYear`, season `20202021`). -/
theorem get_stats_validates_before_network_witness :
    ("bogus" ∉ Player.VALID_STATS ∧
      (Player.mkNew (.int 7)).get_stats .transport "bogus" ""
        = (.error (.valueError "bogus is not a valid stat type", false),
            Player.mkNew (.int 7), 0)) ∧
    (("20202021" : String) ≠ "" ∧
      (Player.mkNew (.int 7)).get_stats .transport "yearByYear" "20202021"
        = (.error (.valueError
            "Season can\x27t be specified when stats is yearByYear", false),
            Player.mkNew (.int 7), 0)) :=
  ⟨⟨by decide,
      get_stats_validates_before_network.2.1 .transport _ "bogus" ""
        (by decide)⟩,
   ⟨by decide,
      get_stats_validates_before_network.2.2 .transport _ "20202021"
        (by decide)⟩⟩

/-! ## C8: roster construction -/

/-- A roster response body:
`{"teams":[{"roster":{"roster": entries}}]}`. -/
def rosterBody (entries : List Json) : Json :=
  .obj [("teams", .arr [.obj [("roster", .obj [("roster",
    .arr entries)])]])]

/-- A well-formed roster entry `{"person": {"id": pid}}`. -/
def personEntry (pid : Json) : Json :=
  .obj [("person", .obj [("id", pid)])]

theorem exceptPure {α : Type} (a : α) :
    (pure a : Except PyError α) = .ok a := rfl

theorem exceptBind_ok {α β : Type} (a : α) (f : α → Except PyError β) :
    ((.ok a : Except PyError α) >>= f) = f a := rfl

theorem exceptBind_error {α β : Type} (e : PyError)
    (f : α → Except PyError β) :
    ((.error e : Except PyError α) >>= f) = .error e := rfl

theorem roster_mapM_ok (entries pids : List Json)
    (h : entries.mapM extractPersonId = .ok pids) :
    (entries.mapM fun entry => do
        let pid ← extractPersonId entry
        pure (Player.mkNew pid))
      = .ok (pids.map Player.mkNew) := by
  induction entries generalizing pids with
  | nil =>
      rw [List.mapM_nil, exceptPure] at h
      cases h
      rfl
  | cons hd tl ih =>
      rw [List.mapM_cons] at h ⊢
      cases he : extractPersonId hd with
      | error e => rw [he, exceptBind_error] at h; cases h
      | ok pid =>
          rw [he, exceptBind_ok] at h
          cases ht : tl.mapM extractPersonId with
          | error e => rw [ht, exceptBind_error] at h; cases h
          | ok rest =>
              rw [ht, exceptBind_ok, exceptPure] at h
              cases h
              have hih := ih rest ht
              simp only [exceptPure] at hih
              simp only [he, exceptBind_ok, exceptPure]
              rw [hih, exceptBind_ok, List.map_cons]

/-- C8: on every roster response whose entries each carry `person.id`,
`get_roster` returns one `Player` per entry holding exactly that
identifier, all unloaded (flag false, no attributes), and the whole
operation issues exactly one request — no per-player fetches.  In
particular the two-entry response with ids 10 and 11 yields exactly the
two unloaded players 10 and 11. -/
theorem get_roster_returns_unloaded_players :
    (∀ (t : Team) (season : String) (entries pids : List Json),
        entries.mapM extractPersonId = .ok pids →
        t.get_roster (.ok (rosterBody entries)) season
            = (.ok (pids.map Player.mkNew), 1) ∧
          ∀ p ∈ pids.map Player.mkNew,
            p.loaded_basic_info = false ∧ p.attrs = []) ∧
    (∀ (t : Team) (season : String),
        t.get_roster (.ok (rosterBody [personEntry (.int 10),
            personEntry (.int 11)])) season
          = (.ok [Player.mkNew (.int 10), Player.mkNew (.int 11)], 1)) := by
  constructor
  · intro t season entries pids h
    constructor
    · have hdef : t.get_roster (.ok (rosterBody entries)) season
          = (unguarded (entries.mapM fun entry => do
              let pid ← extractPersonId entry
              pure (Player.mkNew pid)), 1) := rfl
      rw [hdef, roster_mapM_ok entries pids h]
      rfl
    · intro p hp
      obtain ⟨pid, -, rfl⟩ := List.mem_map.mp hp
      exact ⟨rfl, rfl⟩
  · intro t season
    rfl

/-- Witness for C8 at the concrete two-entry roster response. -/
theorem get_roster_returns_unloaded_players_witness :
    ([personEntry (.int 10), personEntry (.int 11)].mapM extractPersonId
        = .ok [.int 10, .int 11]) ∧
    ((Team.mkNew (.int 1)).get_roster
          (.ok (rosterBody [personEntry (.int 10), personEntry (.int 11)]))
          ""
        = (.ok ([Json.int 10, Json.int 11].map Player.mkNew), 1) ∧
      ∀ p ∈ [Json.int 10, Json.int 11].map Player.mkNew,
        p.loaded_basic_info = false ∧ p.attrs = []) :=
  ⟨rfl, get_roster_returns_unloaded_players.1 (Team.mkNew (.int 1)) ""
    [personEntry (.int 10), personEntry (.int 11)] [.int 10, .int 11] rfl⟩

/-! ## C9: bulk team listing -/

/-- A bulk listing response body `{"teams": entries}`. -/
def listingBody (entries : List Json) : Json :=
  .obj [("teams", .arr entries)]

/-- Whether the `get_teams` loop keeps a listing entry: it is skipped
exactly when `only_active` holds and `team_info.get('active', False)` is
not truthy. -/
def keepsEntry (only_active : Bool) : Json → Bool
  | .obj kvs =>
      !only_active || pyTruthy ((dget kvs "active").getD (Json.bool false))
  | _ => !only_active

theorem processTeamEntry_obj_keep (only_active : Bool)
    (kvs : List (String × Json)) (tid : Json)
    (hid : dget kvs "id" = some tid)
    (hkeep : keepsEntry only_active (.obj kvs) = true) :
    processTeamEntry only_active (.obj kvs)
      = .ok (some ⟨tid, true,
          Team.ATTRIBUTE_TO_API_ATTRIBUTE.foldl
            (fun a q => setAttr a q.1 (pyGetNull kvs q.2)) []⟩) := by
  cases hoa : only_active with
  | false =>
      simp [processTeamEntry, exceptBind_ok, exceptPure, getItemS, hid,
        Team.load_basic_info, Team.mkNew]
  | true =>
      rw [hoa] at hkeep
      simp only [keepsEntry, Bool.not_true, Bool.false_or] at hkeep
      simp [processTeamEntry, hkeep, exceptBind_ok, exceptPure, getItemS,
        hid, Team.load_basic_info, Team.mkNew]

theorem processTeamEntry_obj_skip (only_active : Bool)
    (kvs : List (String × Json))
    (hskip : keepsEntry only_active (.obj kvs) = false) :
    processTeamEntry only_active (.obj kvs) = .ok none := by
  cases hoa : only_active with
  | false => rw [hoa] at hskip; simp [keepsEntry] at hskip
  | true =>
      rw [hoa] at hskip
      simp only [keepsEntry, Bool.not_true, Bool.false_or] at hskip
      simp [processTeamEntry, hskip, exceptBind_ok, exceptPure]

theorem teams_loop (only_active : Bool) (entries : List Json)
    (hwf : ∀ e ∈ entries,
      ∃ kvs tid, e = Json.obj kvs ∧ dget kvs "id" = some tid) :
    ∃ opts : List (Option Team),
      entries.mapM (processTeamEntry only_active) = .ok opts ∧
      List.Forall₂ (fun e t => getItemS e "id" = .ok t.team_id ∧
          (Team.mkNew t.team_id).load_basic_info e = .ok t)
        (entries.filter (keepsEntry only_active)) opts.reduceOption ∧
      ∀ t ∈ opts.reduceOption, t.loaded_basic_info = true ∧
        ∀ name ∈ Team.attributeNames, (dget t.attrs name).isSome := by
  induction entries with
  | nil => exact ⟨[], rfl, by simp, by simp⟩
  | cons hd tl ih =>
      obtain ⟨kvs, tid, rfl, hid⟩ := hwf hd (List.mem_cons_self _ _)
      obtain ⟨opts, hmap, hfa, hattrs⟩ :=
        ih fun e he => hwf e (List.mem_cons_of_mem _ he)
      cases hkeep : keepsEntry only_active (.obj kvs) with
      | true =>
          refine ⟨some ⟨tid, true,
              Team.ATTRIBUTE_TO_API_ATTRIBUTE.foldl
                (fun a q => setAttr a q.1 (pyGetNull kvs q.2)) []⟩ :: opts,
            ?_, ?_, ?_⟩
          · rw [List.mapM_cons,
              processTeamEntry_obj_keep only_active kvs tid hid hkeep,
              exceptBind_ok, hmap, exceptBind_ok, exceptPure]
          · rw [List.filter_cons_of_pos hkeep, List.reduceOption_cons_of_some]
            refine List.Forall₂.cons ⟨?_, ?_⟩ hfa
            · simp [getItemS, hid]
            · rfl
          · rw [List.reduceOption_cons_of_some]
            intro t ht
            rcases List.mem_cons.mp ht with rfl | htl
            · refine ⟨rfl, fun name hname => ?_⟩
              obtain ⟨api, hapi⟩ := team_attr_exists_api hname
              rw [dget_foldl_setAttr (fun q => pyGetNull kvs q.2) _ _ _ _
                team_map_keys_nodup hapi]
              rfl
            · exact hattrs t htl
      | false =>
          refine ⟨none :: opts, ?_, ?_, ?_⟩
          · rw [List.mapM_cons,
              processTeamEntry_obj_skip only_active kvs hkeep,
              exceptBind_ok, hmap, exceptBind_ok, exceptPure]
          · rw [List.filter_cons_of_neg (by simp [hkeep]),
              List.reduceOption_cons_of_none]
            exact hfa
          · rw [List.reduceOption_cons_of_none]
            exact hattrs

/-- C9: on a well-formed bulk listing response, `get_teams` issues one
request and returns one `Team` per kept entry (every entry when
`only_active` is false, only entries with a truthy active flag when it is
true); each returned team carries the entry's id, was eagerly populated
from the listing payload by the very `load_basic_info` used by the lazy
path, has its loaded flag true, and every subsequent descriptive-field
read on it succeeds with zero network requests. -/
theorem get_teams_eagerly_populates :
    ∀ (only_active : Bool) (entries : List Json),
      (∀ e ∈ entries,
        ∃ kvs tid, e = Json.obj kvs ∧ dget kvs "id" = some tid) →
      ∃ ts : List Team,
        get_teams (.ok (listingBody entries)) only_active = (.ok ts, 1) ∧
        List.Forall₂ (fun e t => getItemS e "id" = .ok t.team_id ∧
            (Team.mkNew t.team_id).load_basic_info e = .ok t)
          (entries.filter (keepsEntry only_active)) ts ∧
        ∀ t ∈ ts, t.loaded_basic_info = true ∧
          ∀ name ∈ Team.attributeNames,
            ∃ v, t.readAttr .transport name = (.ok v, t, 0) := by
  intro oa entries hwf
  obtain ⟨opts, hmap, hfa, hattrs⟩ := teams_loop oa entries hwf
  refine ⟨opts.reduceOption, ?_, hfa, ?_⟩
  · have hdef : get_teams (.ok (listingBody entries)) oa
        = (unguarded ((entries.mapM (processTeamEntry oa)).map
            List.reduceOption), 1) := rfl
    rw [hdef, hmap]
    rfl
  · intro t ht
    obtain ⟨hl, hattr⟩ := hattrs t ht
    refine ⟨hl, fun name hname => ?_⟩
    have hnb := team_field_not_builtin name hname
    obtain ⟨v, hv⟩ := Option.isSome_iff_exists.mp (hattr name hname)
    refine ⟨v, team_readAttr_of_some _ _ ?_⟩
    rw [team_instanceAttr_eq_dget _ hnb.1 hnb.2]
    exact hv

/-- A listing entry for an active team with id 1. -/
def c9Entry1 : Json := .obj [("id", .int 1), ("active", .bool true)]

/-- A listing entry for an inactive team with id 2. -/
def c9Entry2 : Json := .obj [("id", .int 2), ("active", .bool false)]

/-- Witness for C9 at a concrete two-entry listing with
`only_active = true`. -/
theorem get_teams_eagerly_populates_witness :
    ∃ ts : List Team,
      get_teams (.ok (listingBody [c9Entry1, c9Entry2])) true
          = (.ok ts, 1) ∧
      List.Forall₂ (fun e t => getItemS e "id" = .ok t.team_id ∧
          (Team.mkNew t.team_id).load_basic_info e = .ok t)
        ([c9Entry1, c9Entry2].filter (keepsEntry true)) ts ∧
      ∀ t ∈ ts, t.loaded_basic_info = true ∧
        ∀ name ∈ Team.attributeNames,
          ∃ v, t.readAttr .transport name = (.ok v, t, 0) := by
  refine get_teams_eagerly_populates true [c9Entry1, c9Entry2] ?_
  intro e he
  rcases List.mem_cons.mp he with rfl | he2
  · exact ⟨_, Json.int 1, rfl, rfl⟩
  · rcases List.mem_cons.mp he2 with rfl | he3
    · exact ⟨_, Json.int 2, rfl, rfl⟩
    · cases he3

/-! ## C6 / C10: team stats translation -/

/-- A team-stats response body:
`{"teams":[{"teamStats":[{"splits":[{"stat": kvs}]}]}]}`. -/
def statsBody (kvs : List (String × Json)) : Json :=
  .obj [("teams", .arr [.obj [("teamStats", .arr [.obj [("splits",
    .arr [.obj [("stat", .obj kvs)]])]])]])]

/-- The `TeamStats` field name of a mapped provider key. -/
def statName (k : String) : String :=
  (dget Team.STATS_API_ATTRIBUTE_TO_STAT_ATTRIBUTE k).getD ""

theorem stats_map_keys_nodup :
    (Team.STATS_API_ATTRIBUTE_TO_STAT_ATTRIBUTE.map Prod.fst).Nodup := by
  decide

theorem stats_map_values_nodup :
    (Team.STATS_API_ATTRIBUTE_TO_STAT_ATTRIBUTE.map Prod.snd).Nodup := by
  decide

theorem stats_map_values_fields :
    ∀ q ∈ Team.STATS_API_ATTRIBUTE_TO_STAT_ATTRIBUTE,
      q.2 ∈ TeamStats.fieldNames := by decide

theorem fieldNames_covered : ∀ fn ∈ TeamStats.fieldNames,
    fn ∈ Team.STATS_API_ATTRIBUTE_TO_STAT_ATTRIBUTE.map Prod.snd := by
  decide

theorem mem_keys_exists_val {α : Type} {l : List (String × α)} {k : String}
    (h : k ∈ l.map Prod.fst) : ∃ v, (k, v) ∈ l := by
  obtain ⟨q, hq, hfst⟩ := List.mem_map.mp h
  exact ⟨q.2, by rwa [show (k, q.2) = q from by rw [← hfst]]⟩

theorem dget_eq_none_of_not_mem {α : Type} {l : List (String × α)}
    {k : String} (h : k ∉ l.map Prod.fst) : dget l k = none := by
  induction l with
  | nil => rfl
  | cons hd tl ih =>
      obtain ⟨k', v'⟩ := hd
      simp only [List.map_cons, List.mem_cons, not_or] at h
      have hne : k' ≠ k := fun e => h.1 e.symm
      simp only [dget, hne, if_false]
      exact ih h.2

theorem transformStats_mapped (d : List (String × Json))
    (h : ∀ q ∈ d,
      (dget Team.STATS_API_ATTRIBUTE_TO_STAT_ATTRIBUTE q.1).isSome) :
    transformStats d = .ok (d.map fun q => (statName q.1, q.2)) := by
  induction d with
  | nil => rfl
  | cons hd tl ih =>
      obtain ⟨fn, hfn⟩ := Option.isSome_iff_exists.mp
        (h hd (List.mem_cons_self _ _))
      have hih := ih fun q hq => h q (List.mem_cons_of_mem _ hq)
      simp only [transformStats] at hih ⊢
      rw [List.mapM_cons]
      simp only [hfn]
      rw [exceptBind_ok, hih, exceptBind_ok, exceptPure]
      simp [statName, hfn]

theorem transformStats_unmapped (d : List (String × Json))
    (h : ∃ q ∈ d,
      dget Team.STATS_API_ATTRIBUTE_TO_STAT_ATTRIBUTE q.1 = none) :
    ∃ k, transformStats d = .error (.keyError k) := by
  induction d with
  | nil =>
      obtain ⟨q, hq, -⟩ := h
      cases hq
  | cons hd tl ih =>
      simp only [transformStats, List.mapM_cons]
      cases hfn : dget Team.STATS_API_ATTRIBUTE_TO_STAT_ATTRIBUTE hd.1 with
      | none =>
          refine ⟨hd.1, ?_⟩
          simp only [hfn]
          rw [exceptBind_error]
      | some fn =>
          have hex : ∃ q ∈ tl,
              dget Team.STATS_API_ATTRIBUTE_TO_STAT_ATTRIBUTE q.1 = none := by
            obtain ⟨q, hq, hqn⟩ := h
            rcases List.mem_cons.mp hq with rfl | hmem
            · rw [hfn] at hqn; cases hqn
            · exact ⟨q, hmem, hqn⟩
          obtain ⟨k, hk⟩ := ih hex
          refine ⟨k, ?_⟩
          simp only [hfn]
          rw [exceptBind_ok]
          simp only [transformStats] at hk
          rw [hk, exceptBind_error]

theorem statName_inj {k k' : String}
    (hk : (dget Team.STATS_API_ATTRIBUTE_TO_STAT_ATTRIBUTE k).isSome)
    (hk' : (dget Team.STATS_API_ATTRIBUTE_TO_STAT_ATTRIBUTE k').isSome)
    (h : statName k = statName k') : k = k' := by
  obtain ⟨fn, hfn⟩ := Option.isSome_iff_exists.mp hk
  obtain ⟨fn', hfn'⟩ := Option.isSome_iff_exists.mp hk'
  have h1 : fn = fn' := by simpa [statName, hfn, hfn'] using h
  subst h1
  exact mem_snd_nodup_inj stats_map_values_nodup (dget_eq_some_mem hfn)
    (dget_eq_some_mem hfn')

theorem dget_transform_eq {d : List (String × Json)} {k : String} {v : Json}
    (hnd : (d.map Prod.fst).Nodup)
    (hmapped : ∀ q ∈ d,
      (dget Team.STATS_API_ATTRIBUTE_TO_STAT_ATTRIBUTE q.1).isSome)
    (hkv : (k, v) ∈ d) :
    dget (d.map fun q => (statName q.1, q.2)) (statName k) = some v := by
  induction d with
  | nil => cases hkv
  | cons hd tl ih =>
      obtain ⟨k0, v0⟩ := hd
      simp only [List.map_cons, List.nodup_cons] at hnd
      by_cases hk : k0 = k
      · subst hk
        have hv : v = v0 := by
          rcases List.mem_cons.mp hkv with heq | hmem
          · cases heq; rfl
          · exact absurd (List.mem_map_of_mem Prod.fst hmem) hnd.1
        subst hv
        simp [dget]
      · have hkm : (dget Team.STATS_API_ATTRIBUTE_TO_STAT_ATTRIBUTE
            k).isSome := by
          rcases List.mem_cons.mp hkv with heq | hmem
          · cases heq; exact absurd rfl hk
          · exact hmapped _ (List.mem_cons_of_mem _ hmem)
        have hne : statName k0 ≠ statName k := fun he =>
          hk (statName_inj (hmapped _ (List.mem_cons_self _ _)) hkm he)
        have hmem : (k, v) ∈ tl := by
          rcases List.mem_cons.mp hkv with heq | hmem
          · cases heq; exact absurd rfl hk
          · exact hmem
        simp only [List.map_cons, dget, hne, if_false]
        exact ih hnd.2 (fun q hq => hmapped q (List.mem_cons_of_mem _ hq))
          hmem

theorem mkTeamStats_ok_fields {t : List (String × Json)} {ts : TeamStats}
    (h : mkTeamStats t = .ok ts) :
    ∀ fn ∈ TeamStats.fieldNames, ts.getField fn = some (pyGetNull t fn) := by
  unfold mkTeamStats at h
  split at h
  · cases h
    intro fn hfn
    fin_cases hfn <;> rfl
  · cases h

theorem mkTeamStats_ok_of {t : List (String × Json)}
    (h1 : ∀ fn ∈ TeamStats.fieldNames, (dget t fn).isSome)
    (h2 : ∀ q ∈ t, q.1 ∈ TeamStats.fieldNames) :
    ∃ ts, mkTeamStats t = .ok ts := by
  have hc : ((TeamStats.fieldNames.all fun fn => (dget t fn).isSome)
      && (t.all fun q => TeamStats.fieldNames.contains q.1)) = true := by
    rw [Bool.and_eq_true]
    constructor
    · rw [List.all_eq_true]
      exact h1
    · rw [List.all_eq_true]
      intro q hq
      exact List.elem_eq_true_of_mem (h2 q hq)
  unfold mkTeamStats
  rw [if_pos hc]
  exact ⟨_, rfl⟩

theorem mkTeamStats_missing {t : List (String × Json)} {fn : String}
    (hfn : fn ∈ TeamStats.fieldNames) (hnone : dget t fn = none) :
    mkTeamStats t = .error .typeError := by
  unfold mkTeamStats
  rw [if_neg]
  intro hc
  rw [Bool.and_eq_true] at hc
  obtain ⟨hA, -⟩ := hc
  rw [List.all_eq_true] at hA
  have := hA fn hfn
  rw [hnone] at this
  cases this

/-- C6: `get_team_stats` fails (with the comprehension's `KeyError`)
whenever the provider's stats payload contains a key with no entry in the
fixed stats mapping table — never silently dropping it — and when every
key is mapped and the payload covers the table, it returns a `TeamStats`
whose fields are exactly the response values under the mapped names. -/
theorem get_team_stats_strict_mapping :
    (∀ (t : Team) (season : String) (d : List (String × Json))
        (k : String) (v : Json),
        (k, v) ∈ d →
        dget Team.STATS_API_ATTRIBUTE_TO_STAT_ATTRIBUTE k = none →
        ∃ k', t.get_team_stats (.ok (statsBody d)) season
          = (.error (.keyError k', false), 1)) ∧
    (∀ (t : Team) (season : String) (d : List (String × Json)),
        (d.map Prod.fst).Nodup →
        (∀ q ∈ d,
          (dget Team.STATS_API_ATTRIBUTE_TO_STAT_ATTRIBUTE q.1).isSome) →
        (∀ k ∈ Team.statsApiKeys, k ∈ d.map Prod.fst) →
        ∃ ts, t.get_team_stats (.ok (statsBody d)) season = (.ok ts, 1) ∧
          ∀ k v, (k, v) ∈ d →
            ∃ fn, dget Team.STATS_API_ATTRIBUTE_TO_STAT_ATTRIBUTE k
                = some fn ∧
              ts.getField fn = some v) := by
  constructor
  · intro t season d k v hkv hnone
    obtain ⟨k', herr⟩ := transformStats_unmapped d ⟨(k, v), hkv, hnone⟩
    refine ⟨k', ?_⟩
    have hdef : t.get_team_stats (.ok (statsBody d)) season
        = (unguarded (transformStats d >>= fun tr => mkTeamStats tr), 1) :=
      rfl
    rw [hdef, herr, exceptBind_error]
    rfl
  · intro t season d hnd hmapped hcover
    have htr := transformStats_mapped d hmapped
    have h1 : ∀ fn ∈ TeamStats.fieldNames,
        (dget (d.map fun q => (statName q.1, q.2)) fn).isSome := by
      intro fn hfn
      obtain ⟨q, hq, hsnd⟩ := List.mem_map.mp (fieldNames_covered fn hfn)
      have hk0cover : q.1 ∈ d.map Prod.fst :=
        hcover q.1 (List.mem_map_of_mem Prod.fst hq)
      obtain ⟨v0, hv0⟩ := mem_keys_exists_val hk0cover
      have hdg : dget Team.STATS_API_ATTRIBUTE_TO_STAT_ATTRIBUTE q.1
          = some q.2 :=
        dget_of_mem_keys_nodup stats_map_keys_nodup hq
      have hsn : statName q.1 = fn := by simp [statName, hdg, hsnd]
      rw [← hsn, dget_transform_eq hnd hmapped hv0]
      rfl
    have h2 : ∀ p ∈ (d.map fun q => (statName q.1, q.2)),
        p.1 ∈ TeamStats.fieldNames := by
      intro p hp
      obtain ⟨q, hq, rfl⟩ := List.mem_map.mp hp
      obtain ⟨fn, hfn⟩ := Option.isSome_iff_exists.mp (hmapped q hq)
      have hsn : statName q.1 = fn := by simp [statName, hfn]
      rw [show (statName q.1, q.2).1 = statName q.1 from rfl, hsn]
      exact stats_map_values_fields _ (dget_eq_some_mem hfn)
    obtain ⟨ts, hmk⟩ := mkTeamStats_ok_of h1 h2
    refine ⟨ts, ?_, ?_⟩
    · have hdef : t.get_team_stats (.ok (statsBody d)) season
          = (unguarded (transformStats d >>= fun tr => mkTeamStats tr),
              1) := rfl
      rw [hdef, htr, exceptBind_ok, hmk]
      rfl
    · intro k v hkv
      obtain ⟨fn, hfn⟩ := Option.isSome_iff_exists.mp (hmapped (k, v) hkv)
      refine ⟨fn, hfn, ?_⟩
      rw [mkTeamStats_ok_fields hmk fn
        (stats_map_values_fields _ (dget_eq_some_mem hfn))]
      have hsn : statName k = fn := by simp [statName, hfn]
      have hv := dget_transform_eq hnd hmapped hkv
      rw [hsn] at hv
      simp [pyGetNull, hv]

/-- A full stats payload: every provider key of the mapping table, each
carrying a distinct string value. -/
def fullStatsPayload : List (String × Json) :=
  Team.STATS_API_ATTRIBUTE_TO_STAT_ATTRIBUTE.map fun q =>
    (q.1, Json.str q.2)

/-- Witness for C6: the unmapped key `bogus` makes the operation fail,
and the full 28-key payload maps into a `TeamStats` exactly. -/
theorem get_team_stats_strict_mapping_witness :
    ((("bogus", Json.null) ∈ [("bogus", Json.null)]) ∧
      ∃ k', (Team.mkNew (.int 1)).get_team_stats
          (.ok (statsBody [("bogus", Json.null)])) ""
        = (.error (.keyError k', false), 1)) ∧
    (∃ ts, (Team.mkNew (.int 1)).get_team_stats
          (.ok (statsBody fullStatsPayload)) "" = (.ok ts, 1) ∧
        ∀ k v, (k, v) ∈ fullStatsPayload →
          ∃ fn, dget Team.STATS_API_ATTRIBUTE_TO_STAT_ATTRIBUTE k
              = some fn ∧
            ts.getField fn = some v) :=
  ⟨⟨List.mem_singleton.mpr rfl,
    get_team_stats_strict_mapping.1 (Team.mkNew (.int 1)) ""
      [("bogus", Json.null)] "bogus" Json.null (List.mem_singleton.mpr rfl)
      (by decide)⟩,
   get_team_stats_strict_mapping.2 (Team.mkNew (.int 1)) ""
     fullStatsPayload (by decide) (by decide) (by decide)⟩

/-- C10: `TeamStats` has 28 fields, all required; a stats payload whose
keys all map cleanly but that misses even one of the 28 provider keys
makes `get_team_stats` fail with the constructor's `TypeError` — the
strict fixed shape is enforced in both directions. -/
theorem get_team_stats_missing_field_fails :
    ∀ (t : Team) (season : String) (d : List (String × Json)) (k : String),
      (∀ q ∈ d,
        (dget Team.STATS_API_ATTRIBUTE_TO_STAT_ATTRIBUTE q.1).isSome) →
      k ∈ Team.statsApiKeys → k ∉ d.map Prod.fst →
      TeamStats.fieldNames.length = 28 ∧
      t.get_team_stats (.ok (statsBody d)) season
        = (.error (.typeError, false), 1) := by
  intro t season d k hmapped hk hnotin
  refine ⟨rfl, ?_⟩
  have htr := transformStats_mapped d hmapped
  obtain ⟨fn0, hpair⟩ := mem_keys_exists_val
    (show k ∈ Team.STATS_API_ATTRIBUTE_TO_STAT_ATTRIBUTE.map Prod.fst
      from hk)
  have hdg : dget Team.STATS_API_ATTRIBUTE_TO_STAT_ATTRIBUTE k = some fn0 :=
    dget_of_mem_keys_nodup stats_map_keys_nodup hpair
  have hfn0 : fn0 ∈ TeamStats.fieldNames := stats_map_values_fields _ hpair
  have hnone : dget (d.map fun q => (statName q.1, q.2)) fn0 = none := by
    apply dget_eq_none_of_not_mem
    intro hmem
    rw [List.map_map] at hmem
    obtain ⟨q, hq, heq⟩ := List.mem_map.mp hmem
    have hqs : statName q.1 = fn0 := heq
    have hkeq : q.1 = k := statName_inj (hmapped q hq)
      (by rw [hdg]; rfl) (by rw [hqs]; simp [statName, hdg])
    exact hnotin (by rw [← hkeq]; exact List.mem_map_of_mem Prod.fst hq)
  have hmk := mkTeamStats_missing hfn0 hnone
  have hdef : t.get_team_stats (.ok (statsBody d)) season
      = (unguarded (transformStats d >>= fun tr => mkTeamStats tr), 1) :=
    rfl
  rw [hdef, htr, exceptBind_ok, hmk]
  rfl

/-- A stats payload whose keys all map cleanly but that misses the
`gamesPlayed` key. -/
def missingStatsPayload : List (String × Json) := fullStatsPayload.tail

/-- Witness for C10 at the concrete 27-key payload. -/
theorem get_team_stats_missing_field_fails_witness :
    TeamStats.fieldNames.length = 28 ∧
    (Team.mkNew (.int 1)).get_team_stats
        (.ok (statsBody missingStatsPayload)) ""
      = (.error (.typeError, false), 1) :=
  get_team_stats_missing_field_fails (Team.mkNew (.int 1)) ""
    missingStatsPayload "gamesPlayed" (by decide) (by decide) (by decide)

/-! ## C7: structural-error signaling and logging -/

/-- C7 is refuted at concrete inputs: two structural errors that are
re-signaled to the caller but NOT logged (their logged flag is `false`) —
an empty `teams` result array on the basic-info fetch (an `IndexError`
raised by `[0]`, which the `except KeyError` clause does not catch), and
an unmapped stat field on `get_team_stats` (a `KeyError` raised in the
renaming comprehension after the `try:` block has been exited). -/
theorem structural_error_logging_counterexample :
    (Team.mkNew (.int 1)).get_basic_info (.ok (.obj [("teams", .arr [])]))
        = (.error (.indexError, false), Team.mkNew (.int 1), 1) ∧
    (Team.mkNew (.int 1)).get_team_stats
        (.ok (statsBody [("zz", Json.null)])) ""
      = (.error (.keyError "zz", false), 1) :=
  ⟨rfl, rfl⟩

/-- C7 (amended): every structural error is re-signaled to the caller as
a failure distinct from a transport error, but only the missing-key
errors (`KeyError`) raised inside the guarded request/extraction region
are logged: a body lacking the expected `teams`/`people` key is logged
and re-raised, while an empty result array (`IndexError`) and an
unmapped stat field (a `KeyError` raised after the guarded region)
propagate unlogged. -/
theorem structural_errors_resignaled :
    (∀ (t : Team) (kvs : List (String × Json)),
        t.loaded_basic_info = false → dget kvs "teams" = none →
        t.get_basic_info (.ok (.obj kvs))
          = (.error (.keyError "teams", true), t, 1)) ∧
    (∀ (p : Player) (kvs : List (String × Json)),
        p.loaded_basic_info = false → dget kvs "people" = none →
        p.get_basic_info (.ok (.obj kvs))
          = (.error (.keyError "people", true), p, 1)) ∧
    (∀ t : Team, t.loaded_basic_info = false →
        t.get_basic_info (.ok (.obj [("teams", .arr [])]))
          = (.error (.indexError, false), t, 1)) ∧
    (∀ (t : Team) (season : String) (d : List (String × Json)) (k : String)
        (v : Json), (k, v) ∈ d →
        dget Team.STATS_API_ATTRIBUTE_TO_STAT_ATTRIBUTE k = none →
        ∃ k', t.get_team_stats (.ok (statsBody d)) season
            = (.error (.keyError k', false), 1) ∧
          PyError.keyError k' ≠ PyError.httpError ∧
          PyError.indexError ≠ PyError.httpError) := by
  refine ⟨fun t kvs hl hnone => ?_, fun p kvs hl hnone => ?_,
    fun t hl => ?_, fun t season d k v hkv hnone => ?_⟩
  · rw [team_basic_info_not_loaded t _ hl]
    have hex : (do
        let body ← requestJson (.ok (.obj kvs))
        let teams ← getItemS body "teams"
        getItemN teams 0)
          = (.error (.keyError "teams") : Except PyError Json) := by
      simp only [requestJson, exceptBind_ok, getItemS, hnone,
        exceptBind_error]
    rw [hex]
    rfl
  · rw [player_basic_info_not_loaded p _ hl]
    have hex : (do
        let body ← requestJson (.ok (.obj kvs))
        let people ← getItemS body "people"
        getItemN people 0)
          = (.error (.keyError "people") : Except PyError Json) := by
      simp only [requestJson, exceptBind_ok, getItemS, hnone,
        exceptBind_error]
    rw [hex]
    rfl
  · rw [team_basic_info_not_loaded t _ hl]
    rfl
  · obtain ⟨k', herr⟩ := transformStats_unmapped d ⟨(k, v), hkv, hnone⟩
    refine ⟨k', ?_, ?_, by decide⟩
    · have hdef : t.get_team_stats (.ok (statsBody d)) season
          = (unguarded (transformStats d >>= fun tr => mkTeamStats tr),
              1) := rfl
      rw [hdef, herr, exceptBind_error]
      rfl
    · intro h
      exact PyError.noConfusion h

/-- Witness for the amended C7 at concrete inputs. -/
theorem structural_errors_resignaled_witness :
    ((Team.mkNew (.int 2)).get_basic_info (.ok (.obj [("foo", .null)]))
        = (.error (.keyError "teams", true), Team.mkNew (.int 2), 1)) ∧
    ((Player.mkNew (.int 2)).get_basic_info (.ok (.obj []))
        = (.error (.keyError "people", true), Player.mkNew (.int 2), 1)) ∧
    ((Team.mkNew (.int 2)).get_basic_info (.ok (.obj [("teams", .arr [])]))
        = (.error (.indexError, false), Team.mkNew (.int 2), 1)) ∧
    (∃ k', (Team.mkNew (.int 2)).get_team_stats
          (.ok (statsBody [("zzz", Json.int 3)])) ""
        = (.error (.keyError k', false), 1) ∧
      PyError.keyError k' ≠ PyError.httpError ∧
      PyError.indexError ≠ PyError.httpError) :=
  ⟨structural_errors_resignaled.1 (Team.mkNew (.int 2)) [("foo", .null)]
      rfl rfl,
   structural_errors_resignaled.2.1 (Player.mkNew (.int 2)) [] rfl rfl,
   structural_errors_resignaled.2.2.1 (Team.mkNew (.int 2)) rfl,
   structural_errors_resignaled.2.2.2 (Team.mkNew (.int 2)) ""
     [("zzz", Json.int 3)] "zzz" (Json.int 3) (List.mem_singleton.mpr rfl)
     (by decide)⟩

end NhlStats
